import Mathlib

/-!
Shallow embedding of the AURA agent core: the orchestrator control loop
(`core_controller.py`), the safety engine (`safety/safety.py`,
`safety/policies.py`, `safety/permissions.py`, `safety/models.py`), the
tool dispatcher (`tools/executor.py`, `tools/registry.py`), and the
brain-side action validation (`brain/brain.py`).

External effects (the LLM call, subprocess/file/network I/O inside
tools, text-to-speech, the memory store) are modelled as function
parameters; everything the control loop itself computes is embedded
directly from the source.
-/

namespace AURA

/-- Values that can appear in an action's parameter mapping.  The source
receives JSON-decoded Python values; strings and integers cover every
parameter the core inspects. -/
inductive PyVal where
  | vStr : String → PyVal
  | vInt : Int → PyVal
deriving DecidableEq

/-- Python dict with string keys, as an insertion-ordered association
list (Python dicts preserve insertion order and have unique keys). -/
abbrev PyDict := List (String × PyVal)

/-- Evaluation of `d.get(k)`: the binding of `k`, if any. -/
def lookupKey (d : PyDict) (k : String) : Option PyVal :=
  match d with
  | [] => none
  | kv :: rest => if kv.1 == k then some kv.2 else lookupKey rest k

/-- Python `==` on dicts: same key set with equal values, insertion
order ignored. -/
def dictBeq (p q : PyDict) : Bool :=
  p.all (fun kv => lookupKey q kv.1 == some kv.2) &&
  q.all (fun kv => lookupKey p kv.1 == some kv.2)

/-- Evaluation of `d.get(k, dflt)` at call sites that treat the value as
a string (`policies.py` `params.get("command", "")`, `_smart_terminate`
`params.get("path", "unknown")`).  A non-string value at such a key
would make the Python call site raise `TypeError` / print the raw value;
the claims only exercise string-valued parameters. -/
def getParamStr (d : PyDict) (k : String) (dflt : String) : String :=
  match lookupKey d k with
  | some (PyVal.vStr s) => s
  | _ => dflt

/-- Containment of `needle` in `hay` as a contiguous character run,
i.e. the Python substring test `needle in hay`. -/
def listHasSub (needle : List Char) : List Char → Bool
  | [] => needle.isEmpty
  | c :: t => needle.isPrefixOf (c :: t) || listHasSub needle t

/-- Python `needle in hay` on strings. -/
def strHasSub (hay needle : String) : Bool :=
  listHasSub needle.data hay.data

/-- The action record produced by the oracle each step
(a JSON-decoded Python dict; every field access in the source is by
`.get`, so each field is optional).  The free-text `thought` field is
never inspected by the core and is omitted. -/
structure Action where
  type : Option String
  tool : Option String
  params : Option PyDict
  message : Option String
deriving DecidableEq

/-- The `action_signature` dict built by
`CoreAgentController._is_repeated_action`:
`{"tool": action.get("tool"), "params": action.get("params", {})}`. -/
structure ActionSig where
  tool : Option String
  params : PyDict
deriving DecidableEq

/-- Signature of an action (`_is_repeated_action` lines 346-349). -/
def sigOf (action : Action) : ActionSig :=
  ⟨action.tool, action.params.getD []⟩

/-- Python `==` on two signature dicts: the `"tool"` entries compared
with `==` (None or str), the `"params"` entries with dict equality. -/
def sigBeq (a b : ActionSig) : Bool :=
  a.tool == b.tool && dictBeq a.params b.params

/-- Rendering of `None` or a string under Python `str` / f-string
interpolation. -/
def pyStrOfOptStr : Option String → String
  | none => "None"
  | some s => s

/-- Rendering of a parameter value under Python `repr` (as it appears
inside `str` of a dict).  Simple strings render quoted; the claims never
exercise strings needing escape sequences. -/
def pyReprVal : PyVal → String
  | PyVal.vStr s => "\x27" ++ s ++ "\x27"
  | PyVal.vInt n => toString n

/-- Rendering of a dict under Python `str`: insertion-ordered
`\x7b'k': v, ...\x7d`. -/
def pyStrDict (d : PyDict) : String :=
  "\x7b" ++
    String.intercalate ", "
      (d.map (fun kv => "\x27" ++ kv.1 ++ "\x27: " ++ pyReprVal kv.2)) ++
  "\x7d"

/-- Rendering of `str(action.get("params"))`: `"None"` when the key is
absent, the dict rendering otherwise. -/
def pyStrOfOptDict : Option PyDict → String
  | none => "None"
  | some d => pyStrDict d

/-- Risk levels (`safety/models.py`). -/
inductive SafetyLevel where
  | LOW
  | MEDIUM
  | HIGH
deriving DecidableEq

/-- Safety decisions (`safety/models.py`). -/
inductive SafetyDecisionType where
  | ALLOW
  | CONFIRM
  | DENY
deriving DecidableEq

/-- Decision record returned by the safety engine
(`safety/models.py`). -/
structure SafetyDecision where
  decision : SafetyDecisionType
  level : SafetyLevel
  reason : String
deriving DecidableEq

/-- Stateless rule-based risk classifier
(`safety/policies.py`, `SafetyPolicy.classify`). -/
def SafetyPolicy.classify (action : Action) : SafetyLevel :=
  let tool := action.tool.getD ""
  let params := action.params.getD []
  if tool == "run_shell" && strHasSub (getParamStr params "command" "") "rm" then
    SafetyLevel.HIGH
  else if tool == "open_app" || tool == "open_browser" then
    SafetyLevel.LOW
  else if tool == "write_file" then
    SafetyLevel.MEDIUM
  else
    SafetyLevel.MEDIUM

/-- Permission cache (`safety/permissions.py`): two sets of action keys,
modelled as lists observed only through membership. -/
structure PermissionStore where
  allowed : List String
  denied : List String
deriving DecidableEq

def PermissionStore.isAllowed (p : PermissionStore) (k : String) : Bool :=
  p.allowed.contains k

def PermissionStore.isDenied (p : PermissionStore) (k : String) : Bool :=
  p.denied.contains k

def PermissionStore.allow (p : PermissionStore) (k : String) : PermissionStore :=
  { p with allowed := k :: p.allowed }

def PermissionStore.deny (p : PermissionStore) (k : String) : PermissionStore :=
  { p with denied := k :: p.denied }

/-- Fresh store (`PermissionStore.__init__`). -/
def emptyPerms : PermissionStore := ⟨[], []⟩

/-- Cache key of an action (`safety/safety.py`, `Safety._action_key`):
the f-string `"\x7baction.get(tool)\x7d:\x7bstr(action.get(params))\x7d"`,
which renders the parameter dict in insertion order. -/
def Safety.actionKey (action : Action) : String :=
  pyStrOfOptStr action.tool ++ ":" ++ pyStrOfOptDict action.params

/-- Safety engine evaluation (`safety/safety.py`, `Safety.check`),
pure in the cache state: deny cache, then allow cache, then rule
classification mapped LOW to ALLOW, MEDIUM to CONFIRM, HIGH to DENY. -/
def Safety.check (perms : PermissionStore) (action : Action) : SafetyDecision :=
  let actionKey := Safety.actionKey action
  if perms.isDenied actionKey then
    ⟨SafetyDecisionType.DENY, SafetyLevel.HIGH, "Action explicitly denied by user"⟩
  else if perms.isAllowed actionKey then
    ⟨SafetyDecisionType.ALLOW, SafetyLevel.LOW, "Previously approved action"⟩
  else
    match SafetyPolicy.classify action with
    | SafetyLevel.LOW => ⟨SafetyDecisionType.ALLOW, SafetyLevel.LOW, "Low-risk action"⟩
    | SafetyLevel.MEDIUM => ⟨SafetyDecisionType.CONFIRM, SafetyLevel.MEDIUM, "Requires user confirmation"⟩
    | SafetyLevel.HIGH => ⟨SafetyDecisionType.DENY, SafetyLevel.HIGH, "High-risk action blocked"⟩

/-- Tool names registered by `Executor.__init__` (`tools/executor.py`
lines 25-33, via each tool class's `name` attribute). -/
def registeredTools : List String :=
  ["open_browser", "open_app", "SHELL_EXECUTE", "READ_FILE",
   "WRITE_FILE", "WRITE_AND_OPEN", "SEARCH_WEB", "SEARCH_GOOGLE"]

/-- Tools short-circuited in offline mode (`tools/executor.py`
`ONLINE_ONLY_TOOLS`). -/
def onlineOnlyTools : List String := ["SEARCH_WEB", "SEARCH_GOOGLE", "OPEN_BROWSER"]

/-- Rendering of a parameter value under Python `str` inside an
f-string (no quotes around strings). -/
def pyStrVal : PyVal → String
  | PyVal.vStr s => s
  | PyVal.vInt n => toString n

/-- Offline degraded-mode message (`Executor._get_offline_message`). -/
def offlineMessage (toolName : String) (params : PyDict) : String :=
  let query := pyStrVal ((lookupKey params "query").getD ((lookupKey params "url").getD (PyVal.vStr "")))
  if toolName == "SEARCH_WEB" || toolName == "SEARCH_GOOGLE" then
    "📴 Currently in offline mode - web search is unavailable.\n" ++
    "Your search: \"" ++ query ++ "\"\n\n" ++
    "💡 I\x27ll answer using my built-in knowledge instead.\n" ++
    "Once you\x27re connected to the internet, web search will work again."
  else if toolName == "OPEN_BROWSER" then
    "📴 Currently in offline mode - cannot open web pages.\n" ++
    "URL requested: " ++ query ++ "\n\n" ++
    "💡 Once you\x27re connected to the internet, I can open this for you."
  else
    "📴 \x27" ++ toolName ++ "\x27 requires internet connection.\n" ++
    "This feature will work once you\x27re connected to the internet."

/-- Tool dispatch (`tools/executor.py`, `Executor.execute`, with the
registry lookup of `tools/registry.py` inlined).  A raised exception is
an `Except.error` carrying `str(e)`.  `toolRun` abstracts the registered
tools' own `run` bodies (subprocess / file / network I/O), including a
`TypeError` for keyword-argument mismatch, as an `Except` result;
`offline` abstracts `OfflineState.is_offline()`. -/
def Executor.execute (toolRun : String → PyDict → Except String String)
    (offline : Bool) (action : Action) : Except String String :=
  if !(action.type == some "ACTION") then
    Except.error "Executor received non-ACTION type"
  else
    let toolName := action.tool
    let params := action.params.getD []
    if offline && (match toolName with
                   | some t => onlineOnlyTools.contains t
                   | none => false) then
      Except.ok (offlineMessage (toolName.getD "") params)
    else if (match toolName with
             | some t => registeredTools.contains t
             | none => false) then
      toolRun (toolName.getD "") params
    else
      Except.error ("Tool \x27" ++ pyStrOfOptStr toolName ++ "\x27 not found")

/-- Post-parse validation in `Brain.next_action` (`brain/brain.py` lines
161-167): a successfully JSON-decoded action missing the `"type"` key is
replaced by a STOP action with a fixed message; otherwise the action
passes through unchanged. -/
def brainValidate (parsed : Action) : Action :=
  match parsed.type with
  | none =>
      ⟨some "STOP", none, none,
       some "Stopped due to malformed action (missing \x27type\x27)."⟩
  | some _ => parsed

/-- Observation port (`perception/voice.py`, `VoiceEngine.observe`):
an error (Python-truthy, i.e. a non-empty string) yields a failure
observation, otherwise the result is summarised, truncated beyond 500
characters with a visible marker. -/
def VoiceEngine.observe (_action : Action) (result : Option String)
    (error : Option String) : String :=
  if (match error with | some e => !(e == "") | none => false) then
    "Action failed with error: " ++ (error.getD "")
  else
    match result with
    | none => "Action completed with no output."
    | some r =>
        let rs := if r.length > 500 then r.take 500 ++ "... (truncated)" else r
        "Action completed. Result: " ++ rs

/-- Run state (`core_controller.py`, `AgentState`): step and failure
counters, the configured budgets, and the bounded recent-action
history. -/
structure AgentState where
  stepCount : Nat
  failureCount : Nat
  maxSteps : Nat
  maxFailures : Nat
  lastActions : List ActionSig
deriving DecidableEq

/-- State built by `CoreAgentController.__init__`: zero counters, empty
history, configured budgets (defaults 15 and 4). -/
def initState (maxSteps maxFailures : Nat) : AgentState :=
  ⟨0, 0, maxSteps, maxFailures, []⟩

/-- One completed iteration (`core_controller.py`, `TraceStep`).  The
wall-clock `timestamp` field is external time and carries no information
the core ever reads back; it is omitted from the embedding. -/
structure TraceStep where
  stepId : Nat
  action : Action
  success : Bool
  result : Option String
  observation : String
  error : Option String
deriving DecidableEq

/-- Append-only trace (`core_controller.py`, `ExecutionTrace`; its
`add_step` is list append). -/
abbrev ExecutionTrace := List TraceStep

/-- Terminal value of a run (`core_controller.py`, `AgentResult`). -/
structure AgentResult where
  success : Bool
  message : String
  trace : ExecutionTrace
deriving DecidableEq

/-- Loop-detection helper (`CoreAgentController._is_repeated_action`):
returns the boolean result together with the updated `last_actions`
history.  On a match with the most recent signature it returns early,
leaving the history untouched; otherwise it appends the signature and
evicts the oldest entry beyond depth 3. -/
def isRepeatedAction (lastActions : List ActionSig) (action : Action) :
    Bool × List ActionSig :=
  if !(action.type == some "ACTION") then
    (false, lastActions)
  else
    let sig := sigOf action
    match lastActions.getLast? with
    | some lastSig =>
        if sigBeq sig lastSig then
          (true, lastActions)
        else
          let appended := lastActions ++ [sig]
          (false, if appended.length > 3 then appended.tail else appended)
    | none =>
        let appended := lastActions ++ [sig]
        (false, if appended.length > 3 then appended.tail else appended)

/-- Smart termination for a detected loop
(`CoreAgentController._smart_terminate`). -/
def smartTerminate (action : Action) (trace : ExecutionTrace) : AgentResult :=
  let tool := action.tool.getD ""
  let params := action.params.getD []
  if tool == "WRITE_FILE" || tool == "WRITE_AND_OPEN" then
    let path := getParamStr params "path" "unknown"
    ⟨true,
     "✅ File saved successfully!\n\n📁 **Location:** `" ++ path ++
       "`\n\nThe file has been created with your content.",
     trace⟩
  else if tool == "READ_FILE" then
    let path := getParamStr params "path" "unknown"
    ⟨true, "📄 File read from: " ++ path, trace⟩
  else if tool == "SHELL_EXECUTE" then
    let command := getParamStr params "command" ""
    ⟨true, "⚡ Command executed: " ++ command, trace⟩
  else
    ⟨true, "✅ Task completed successfully.", trace⟩

/-- Ports of the orchestrator, as passed to
`CoreAgentController.__init__`.  `brain` is `Brain.next_action` with the
external LLM behaviour folded in (its arguments are exactly those of the
call at `core_controller.py` lines 173-179); `execute` is the tool
dispatcher; `observe` is `VoiceEngine.observe`.  The memory port's
`store_step` returns nothing and never influences the loop, so it does
not appear. -/
structure Ports where
  brain : String → String → Option String → Option String → AgentState → Action
  execute : Action → Except String String
  observe : Action → Option String → Option String → String

/-- The `while True` body of `CoreAgentController.run`, from the budget
checks onward, returning the terminal `AgentResult` together with the
controller's residual `self.state` (the trace inside the result is the
residual `self.trace`).  The subscript `action["type"]` in the source
never raises because `Brain.next_action` always returns a dict with a
`"type"` key; the embedding reads it with a default. -/
def runLoop (perms : PermissionStore) (P : Ports) (goal memoryContext : String)
    (st : AgentState) (trace : ExecutionTrace)
    (lastObs lastErr : Option String) : AgentResult × AgentState :=
  if _h1 : st.maxSteps ≤ st.stepCount then
    (⟨false, "Stopped: maximum step limit reached.", trace⟩, st)
  else if _h2 : st.maxFailures ≤ st.failureCount then
    (⟨false, "Stopped: too many consecutive failures.", trace⟩, st)
  else
    let action := P.brain goal memoryContext lastObs lastErr st
    if action.type.getD "" == "STOP" then
      (⟨true, action.message.getD "Task completed.", trace⟩, st)
    else if action.type.getD "" == "RESPONSE" then
      (⟨true, action.message.getD "I don\x27t have a response.", trace⟩, st)
    else if (isRepeatedAction st.lastActions action).1 then
      (smartTerminate action trace, st)
    else
      let st1 : AgentState := { st with lastActions := (isRepeatedAction st.lastActions action).2 }
      let dec := Safety.check perms action
      if !(dec.decision == SafetyDecisionType.ALLOW
            || dec.decision == SafetyDecisionType.CONFIRM) then
        (⟨false, "Blocked by safety system: " ++ dec.reason, trace⟩, st1)
      else
        match P.execute action with
        | Except.ok r =>
            let st2 : AgentState := { st1 with failureCount := 0 }
            let obs := P.observe action (some r) none
            let ts : TraceStep := ⟨st2.stepCount, action, true, some r, obs, none⟩
            runLoop perms P goal memoryContext
              { st2 with stepCount := st2.stepCount + 1 }
              (trace ++ [ts]) (some obs) none
        | Except.error e =>
            let st2 : AgentState := { st1 with failureCount := st1.failureCount + 1 }
            let obs := P.observe action none (some e)
            let ts : TraceStep := ⟨st2.stepCount, action, false, none, obs, some e⟩
            runLoop perms P goal memoryContext
              { st2 with stepCount := st2.stepCount + 1 }
              (trace ++ [ts]) (some obs) (some e)
termination_by st.maxSteps - st.stepCount
decreasing_by
  all_goals simp_all
  all_goals omega

/-- Evaluation of `CoreAgentController.run(goal)` on a controller whose
`self.state` is `st` and `self.trace` is `trace` (both are created in
`__init__`, not in `run`, so a later `run` call continues from the
residue of the previous one).  `retrieve` is the memory port's
`retrieve`, called once before the loop; `last_observation` and
`last_error` start as `None`. -/
def runOn (perms : PermissionStore) (P : Ports) (retrieve : String → String)
    (st : AgentState) (trace : ExecutionTrace) (goal : String) :
    AgentResult × AgentState :=
  runLoop perms P goal (retrieve goal) st trace none none

/-- Evaluation of `run(goal)` on a freshly constructed controller. -/
def freshRun (perms : PermissionStore) (P : Ports) (retrieve : String → String)
    (maxSteps maxFailures : Nat) (goal : String) : AgentResult × AgentState :=
  runOn perms P retrieve (initState maxSteps maxFailures) [] goal

/-- Memory port stub: `MemorySystem.retrieve` performs external vector
retrieval; its return value only flows into the oracle prompt. -/
def retrNull : String → String := fun _ => ""

/-- Oracle that proposes the same action at every think call. -/
def constOracle (a : Action) :
    String → String → Option String → Option String → AgentState → Action :=
  fun _ _ _ _ _ => a

/-- Tool behaviour stub in which every registered tool's `run` returns
an empty string successfully. -/
def okToolRun : String → PyDict → Except String String := fun _ _ => Except.ok ""

/-- Destructive shell action of claim C1: the registered shell tool
`SHELL_EXECUTE` (`tools/shell_tools.py`) with a command containing the
destructive sub-command `rm`. -/
def rmAction : Action :=
  ⟨some "ACTION", some "SHELL_EXECUTE",
   some [("command", PyVal.vStr "rm -rf /tmp/aura")], none⟩

/-- Controller ports whose oracle always proposes `rmAction`, with the
embedded tool dispatcher online. -/
def rmPorts : Ports :=
  ⟨constOracle rmAction, Executor.execute okToolRun false, VoiceEngine.observe⟩

/-- Oracle output of kind RESPONSE with an optional message. -/
def responseAction (m : Option String) : Action := ⟨some "RESPONSE", none, none, m⟩

/-- Ports whose oracle immediately responds. -/
def respPorts (m : Option String) : Ports :=
  ⟨constOracle (responseAction m), Executor.execute okToolRun false, VoiceEngine.observe⟩

/-- Parsed oracle output lacking the `"type"` discriminator. -/
def typelessAction : Action := ⟨none, none, none, none⟩

/-- Ports whose oracle's raw output decodes to an action without a
`"type"` key, passed through `Brain.next_action`'s validation. -/
def malformedPorts : Ports :=
  ⟨fun _ _ _ _ _ => brainValidate typelessAction,
   Executor.execute okToolRun false, VoiceEngine.observe⟩

/-- Parsed oracle output carrying an unrecognized kind discriminator. -/
def unknownKindAction : Action := ⟨some "DANCE", none, none, none⟩

/-- Ports whose oracle always returns the unrecognized-kind action. -/
def unknownKindPorts : Ports :=
  ⟨constOracle unknownKindAction, Executor.execute okToolRun false, VoiceEngine.observe⟩

/-- Benign registered-tool action used by the multi-run scenario. -/
def openAppAction : Action :=
  ⟨some "ACTION", some "open_app", some [("app_name", PyVal.vStr "notepad")], none⟩

/-- Oracle output of kind STOP with a message. -/
def stopAction : Action := ⟨some "STOP", none, none, some "done"⟩

/-- Oracle of the multi-run scenario: one tool action on the first
completed iteration, then STOP. -/
def c4brain : String → String → Option String → Option String → AgentState → Action :=
  fun _ _ _ _ st => if st.stepCount == 0 then openAppAction else stopAction

/-- Ports of the multi-run scenario. -/
def c4ports : Ports :=
  ⟨c4brain, Executor.execute okToolRun false, VoiceEngine.observe⟩

/-- Action whose parameter mapping carries the current step index, so
that the signatures of successive oracle proposals are pairwise
distinct. -/
def stepAction (n : Nat) : Action :=
  ⟨some "ACTION", some "X", some [("i", PyVal.vInt (Int.ofNat n))], none⟩

/-- Oracle returning `stepAction` of the current step count. -/
def stepOracle : String → String → Option String → Option String → AgentState → Action :=
  fun _ _ _ _ st => stepAction st.stepCount

/-- Tool Dispatch Port behaviour in which every dispatch fails. -/
def failExec : Action → Except String String := fun _ => Except.error "boom"

/-- Ports of the always-failing-dispatch scenario. -/
def c6ports : Ports := ⟨stepOracle, failExec, VoiceEngine.observe⟩

/-- Tool Dispatch Port behaviour succeeding exactly on the step-0
action and failing afterwards. -/
def firstOkExec : Action → Except String String := fun a =>
  if lookupKey (a.params.getD []) "i" == some (PyVal.vInt 0) then Except.ok "fine"
  else Except.error "boom"

/-- Ports of the success-then-failures scenario. -/
def c6ports2 : Ports := ⟨stepOracle, firstOkExec, VoiceEngine.observe⟩

/-- Ports with the oracle replaced by one that is only consulted inside
both budgets and otherwise returns `junk`.  Equality of the run under
`P` and under `gatePorts P junk` states that the Decision Oracle Port is
never invoked while `step_count ≥ max_steps` or
`failure_count ≥ max_failures`. -/
def gatePorts (P : Ports) (junk : Action) : Ports :=
  { P with
    brain := fun g mc o e st =>
      if st.stepCount < st.maxSteps ∧ st.failureCount < st.maxFailures then
        P.brain g mc o e st
      else junk }

/-- Reachability in the permission cache: the stores obtainable from
`p` by any sequence of the out-of-band `allow` / `deny` operations
(`safety/permissions.py`), the only mutations the store supports. -/
inductive PermEvolve : PermissionStore → PermissionStore → Prop where
  | refl (p : PermissionStore) : PermEvolve p p
  | allowStep (p q : PermissionStore) (k : String) :
      PermEvolve p q → PermEvolve p (q.allow k)
  | denyStep (p q : PermissionStore) (k : String) :
      PermEvolve p q → PermEvolve p (q.deny k)

/-- Parameter mapping with two keys in one insertion order. -/
def abParams : PyDict := [("a", PyVal.vStr "1"), ("b", PyVal.vStr "2")]

/-- The same mapping with the opposite insertion order. -/
def baParams : PyDict := [("b", PyVal.vStr "2"), ("a", PyVal.vStr "1")]

/-- Action carrying `abParams`. -/
def abAction : Action := ⟨some "ACTION", some "X", some abParams, none⟩

/-- Action structurally equal to `abAction` with the parameters in the
opposite insertion order. -/
def baAction : Action := ⟨some "ACTION", some "X", some baParams, none⟩

/-- Scenario C action: kind ACTION, tool `"X"`, empty parameters. -/
def xAction : Action := ⟨some "ACTION", some "X", some [], none⟩

/-- Ports of scenario C: the oracle always proposes `xAction`; dispatch
goes through the embedded executor (where no tool `"X"` is
registered). -/
def c10ports : Ports :=
  ⟨constOracle xAction, Executor.execute okToolRun false, VoiceEngine.observe⟩

theorem blocked_ne_stop (r : String) :
    ("Blocked by safety system: " ++ r) ≠ "Stopped: maximum step limit reached." := by
  intro h
  have h2 : "Blocked by safety system: ".data ++ r.data
      = "Stopped: maximum step limit reached.".data := congrArg String.data h
  exact absurd ⟨r.data, h2⟩
    (by decide :
      ¬ ("Blocked by safety system: ".data <+: "Stopped: maximum step limit reached.".data))

theorem smartTerminate_success (a : Action) (t : ExecutionTrace) :
    (smartTerminate a t).success = true := by
  unfold smartTerminate
  dsimp only
  split
  · rfl
  · split
    · rfl
    · split
      · rfl
      · rfl

theorem smartTerminate_trace (a : Action) (t : ExecutionTrace) :
    (smartTerminate a t).trace = t := by
  unfold smartTerminate
  dsimp only
  split
  · rfl
  · split
    · rfl
    · split
      · rfl
      · rfl

theorem runLoop_trace_grows (perms : PermissionStore) (P : Ports) (goal mc : String) :
    ∀ (st : AgentState) (trace : ExecutionTrace) (o e : Option String),
      trace <+: (runLoop perms P goal mc st trace o e).1.trace := by
  intro st trace o e
  induction st, trace, o, e using runLoop.induct perms P goal mc with
  | case1 st trace o e h1 =>
      rw [runLoop]; simp [h1]
  | case2 st trace o e h1 h2 =>
      rw [runLoop]; simp [h1, h2]
  | case3 st trace o e h1 h2 action h3 =>
      have h3e : ((P.brain goal mc o e st).type.getD "" == "STOP") = true := h3
      rw [runLoop]; simp [h1, h2, h3e]
  | case4 st trace o e h1 h2 action h3 h4 =>
      have h3e : ((P.brain goal mc o e st).type.getD "" == "STOP") = false := by
        simpa using h3
      have h4e : ((P.brain goal mc o e st).type.getD "" == "RESPONSE") = true := h4
      rw [runLoop]; simp [h1, h2, h3e, h4e]
  | case5 st trace o e h1 h2 action h3 h4 h5 =>
      have h3e : ((P.brain goal mc o e st).type.getD "" == "STOP") = false := by
        simpa using h3
      have h4e : ((P.brain goal mc o e st).type.getD "" == "RESPONSE") = false := by
        simpa using h4
      have h5e : (isRepeatedAction st.lastActions (P.brain goal mc o e st)).1 = true := h5
      rw [runLoop]; simp [h1, h2, h3e, h4e, h5e, smartTerminate_trace]
  | case6 st trace o e h1 h2 action h3 h4 h5 dec h6 =>
      have h3e : ((P.brain goal mc o e st).type.getD "" == "STOP") = false := by
        simpa using h3
      have h4e : ((P.brain goal mc o e st).type.getD "" == "RESPONSE") = false := by
        simpa using h4
      have h5e : (isRepeatedAction st.lastActions (P.brain goal mc o e st)).1 = false := by
        simpa using h5
      have h6p : ¬(Safety.check perms (P.brain goal mc o e st)).decision = SafetyDecisionType.ALLOW
          ∧ ¬(Safety.check perms (P.brain goal mc o e st)).decision = SafetyDecisionType.CONFIRM := by
        simpa using h6
      rw [runLoop]; simp [h1, h2, h3e, h4e, h5e, h6p.1, h6p.2]
  | case7 st trace o e h1 h2 action h3 h4 h5 st1 dec h6 r hr st2 obs ts ih =>
      have h3e : ((P.brain goal mc o e st).type.getD "" == "STOP") = false := by
        simpa using h3
      have h4e : ((P.brain goal mc o e st).type.getD "" == "RESPONSE") = false := by
        simpa using h4
      have h5e : (isRepeatedAction st.lastActions (P.brain goal mc o e st)).1 = false := by
        simpa using h5
      have h6p : (Safety.check perms (P.brain goal mc o e st)).decision = SafetyDecisionType.ALLOW
          ∨ (Safety.check perms (P.brain goal mc o e st)).decision = SafetyDecisionType.CONFIRM := by
        have h6b : ¬(Safety.check perms (P.brain goal mc o e st)).decision = SafetyDecisionType.ALLOW
            → (Safety.check perms (P.brain goal mc o e st)).decision = SafetyDecisionType.CONFIRM := by
          simpa using h6
        by_cases hA : (Safety.check perms (P.brain goal mc o e st)).decision = SafetyDecisionType.ALLOW
        · exact Or.inl hA
        · exact Or.inr (h6b hA)
      have hcond : ¬(¬(Safety.check perms (P.brain goal mc o e st)).decision = SafetyDecisionType.ALLOW
          ∧ ¬(Safety.check perms (P.brain goal mc o e st)).decision = SafetyDecisionType.CONFIRM) := by
        rcases h6p with h | h <;> simp [h]
      have hre : P.execute (P.brain goal mc o e st) = Except.ok r := hr
      rw [runLoop]; simp [h1, h2, h3e, h4e, h5e, hre, hcond]
      exact (trace.prefix_append _).trans ih
  | case8 st trace o e h1 h2 action h3 h4 h5 st1 dec h6 er hr st2 obs ts ih =>
      have h3e : ((P.brain goal mc o e st).type.getD "" == "STOP") = false := by
        simpa using h3
      have h4e : ((P.brain goal mc o e st).type.getD "" == "RESPONSE") = false := by
        simpa using h4
      have h5e : (isRepeatedAction st.lastActions (P.brain goal mc o e st)).1 = false := by
        simpa using h5
      have h6p : (Safety.check perms (P.brain goal mc o e st)).decision = SafetyDecisionType.ALLOW
          ∨ (Safety.check perms (P.brain goal mc o e st)).decision = SafetyDecisionType.CONFIRM := by
        have h6b : ¬(Safety.check perms (P.brain goal mc o e st)).decision = SafetyDecisionType.ALLOW
            → (Safety.check perms (P.brain goal mc o e st)).decision = SafetyDecisionType.CONFIRM := by
          simpa using h6
        by_cases hA : (Safety.check perms (P.brain goal mc o e st)).decision = SafetyDecisionType.ALLOW
        · exact Or.inl hA
        · exact Or.inr (h6b hA)
      have hcond : ¬(¬(Safety.check perms (P.brain goal mc o e st)).decision = SafetyDecisionType.ALLOW
          ∧ ¬(Safety.check perms (P.brain goal mc o e st)).decision = SafetyDecisionType.CONFIRM) := by
        rcases h6p with h | h <;> simp [h]
      have hre : P.execute (P.brain goal mc o e st) = Except.error er := hr
      rw [runLoop]; simp [h1, h2, h3e, h4e, h5e, hre, hcond]
      exact (trace.prefix_append _).trans ih

theorem runLoop_step_inv (perms : PermissionStore) (P : Ports) (goal mc : String) :
    ∀ (st : AgentState) (trace : ExecutionTrace) (o e : Option String),
      (runLoop perms P goal mc st trace o e).2.maxSteps = st.maxSteps ∧
      (st.stepCount ≤ st.maxSteps →
        (runLoop perms P goal mc st trace o e).2.stepCount ≤ st.maxSteps) ∧
      (st.stepCount ≤ st.maxSteps →
        (runLoop perms P goal mc st trace o e).1.success = false →
        (runLoop perms P goal mc st trace o e).1.message = "Stopped: maximum step limit reached." →
        (runLoop perms P goal mc st trace o e).2.stepCount = st.maxSteps) := by
  intro st trace o e
  induction st, trace, o, e using runLoop.induct perms P goal mc with
  | case1 st trace o e h1 =>
      rw [runLoop]; simp [h1]
      omega
  | case2 st trace o e h1 h2 =>
      rw [runLoop]; simp [h1, h2]
  | case3 st trace o e h1 h2 action h3 =>
      have h3e : ((P.brain goal mc o e st).type.getD "" == "STOP") = true := h3
      rw [runLoop]; simp [h1, h2, h3e]
  | case4 st trace o e h1 h2 action h3 h4 =>
      have h3e : ((P.brain goal mc o e st).type.getD "" == "STOP") = false := by
        simpa using h3
      have h4e : ((P.brain goal mc o e st).type.getD "" == "RESPONSE") = true := h4
      rw [runLoop]; simp [h1, h2, h3e, h4e]
  | case5 st trace o e h1 h2 action h3 h4 h5 =>
      have h3e : ((P.brain goal mc o e st).type.getD "" == "STOP") = false := by
        simpa using h3
      have h4e : ((P.brain goal mc o e st).type.getD "" == "RESPONSE") = false := by
        simpa using h4
      have h5e : (isRepeatedAction st.lastActions (P.brain goal mc o e st)).1 = true := h5
      rw [runLoop]; simp [h1, h2, h3e, h4e, h5e]
      intro hle hsucc
      rw [smartTerminate_success] at hsucc
      exact absurd hsucc (by decide)
  | case6 st trace o e h1 h2 action h3 h4 h5 dec h6 =>
      have h3e : ((P.brain goal mc o e st).type.getD "" == "STOP") = false := by
        simpa using h3
      have h4e : ((P.brain goal mc o e st).type.getD "" == "RESPONSE") = false := by
        simpa using h4
      have h5e : (isRepeatedAction st.lastActions (P.brain goal mc o e st)).1 = false := by
        simpa using h5
      have h6p : ¬(Safety.check perms (P.brain goal mc o e st)).decision = SafetyDecisionType.ALLOW
          ∧ ¬(Safety.check perms (P.brain goal mc o e st)).decision = SafetyDecisionType.CONFIRM := by
        simpa using h6
      rw [runLoop]; simp [h1, h2, h3e, h4e, h5e, h6p.1, h6p.2]
      intro hle hmsg
      exact absurd hmsg (blocked_ne_stop _)
  | case7 st trace o e h1 h2 action h3 h4 h5 st1 dec h6 r hr st2 obs ts ih =>
      have h3e : ((P.brain goal mc o e st).type.getD "" == "STOP") = false := by
        simpa using h3
      have h4e : ((P.brain goal mc o e st).type.getD "" == "RESPONSE") = false := by
        simpa using h4
      have h5e : (isRepeatedAction st.lastActions (P.brain goal mc o e st)).1 = false := by
        simpa using h5
      have h6p : (Safety.check perms (P.brain goal mc o e st)).decision = SafetyDecisionType.ALLOW
          ∨ (Safety.check perms (P.brain goal mc o e st)).decision = SafetyDecisionType.CONFIRM := by
        have h6b : ¬(Safety.check perms (P.brain goal mc o e st)).decision = SafetyDecisionType.ALLOW
            → (Safety.check perms (P.brain goal mc o e st)).decision = SafetyDecisionType.CONFIRM := by
          simpa using h6
        by_cases hA : (Safety.check perms (P.brain goal mc o e st)).decision = SafetyDecisionType.ALLOW
        · exact Or.inl hA
        · exact Or.inr (h6b hA)
      have hcond : ¬(¬(Safety.check perms (P.brain goal mc o e st)).decision = SafetyDecisionType.ALLOW
          ∧ ¬(Safety.check perms (P.brain goal mc o e st)).decision = SafetyDecisionType.CONFIRM) := by
        rcases h6p with h | h <;> simp [h]
      have hre : P.execute (P.brain goal mc o e st) = Except.ok r := hr
      rw [runLoop]; simp [h1, h2, h3e, h4e, h5e, hre, hcond]
      refine ⟨ih.1, fun hle => ih.2.1 ?_, fun hle hs hm => ih.2.2 ?_ hs hm⟩ <;>
        · show st.stepCount + 1 ≤ st.maxSteps
          omega
  | case8 st trace o e h1 h2 action h3 h4 h5 st1 dec h6 er hr st2 obs ts ih =>
      have h3e : ((P.brain goal mc o e st).type.getD "" == "STOP") = false := by
        simpa using h3
      have h4e : ((P.brain goal mc o e st).type.getD "" == "RESPONSE") = false := by
        simpa using h4
      have h5e : (isRepeatedAction st.lastActions (P.brain goal mc o e st)).1 = false := by
        simpa using h5
      have h6p : (Safety.check perms (P.brain goal mc o e st)).decision = SafetyDecisionType.ALLOW
          ∨ (Safety.check perms (P.brain goal mc o e st)).decision = SafetyDecisionType.CONFIRM := by
        have h6b : ¬(Safety.check perms (P.brain goal mc o e st)).decision = SafetyDecisionType.ALLOW
            → (Safety.check perms (P.brain goal mc o e st)).decision = SafetyDecisionType.CONFIRM := by
          simpa using h6
        by_cases hA : (Safety.check perms (P.brain goal mc o e st)).decision = SafetyDecisionType.ALLOW
        · exact Or.inl hA
        · exact Or.inr (h6b hA)
      have hcond : ¬(¬(Safety.check perms (P.brain goal mc o e st)).decision = SafetyDecisionType.ALLOW
          ∧ ¬(Safety.check perms (P.brain goal mc o e st)).decision = SafetyDecisionType.CONFIRM) := by
        rcases h6p with h | h <;> simp [h]
      have hre : P.execute (P.brain goal mc o e st) = Except.error er := hr
      rw [runLoop]; simp [h1, h2, h3e, h4e, h5e, hre, hcond]
      refine ⟨ih.1, fun hle => ih.2.1 ?_, fun hle hs hm => ih.2.2 ?_ hs hm⟩ <;>
        · show st.stepCount + 1 ≤ st.maxSteps
          omega

theorem gatePorts_brain_eq (P : Ports) (junk : Action) (goal mc : String)
    (o e : Option String) (st : AgentState)
    (h1 : ¬st.maxSteps ≤ st.stepCount) (h2 : ¬st.maxFailures ≤ st.failureCount) :
    (gatePorts P junk).brain goal mc o e st = P.brain goal mc o e st := by
  unfold gatePorts
  simp only []
  rw [if_pos]
  exact ⟨by omega, by omega⟩

theorem gatePorts_execute (P : Ports) (junk : Action) :
    (gatePorts P junk).execute = P.execute := rfl

theorem gatePorts_observe (P : Ports) (junk : Action) :
    (gatePorts P junk).observe = P.observe := rfl

theorem runLoop_gate (perms : PermissionStore) (P : Ports) (junk : Action) (goal mc : String) :
    ∀ (st : AgentState) (trace : ExecutionTrace) (o e : Option String),
      runLoop perms P goal mc st trace o e =
        runLoop perms (gatePorts P junk) goal mc st trace o e := by
  intro st trace o e
  induction st, trace, o, e using runLoop.induct perms P goal mc with
  | case1 st trace o e h1 =>
      rw [runLoop]; conv_rhs => rw [runLoop]
      simp [h1]
  | case2 st trace o e h1 h2 =>
      rw [runLoop]; conv_rhs => rw [runLoop]
      simp [h1, h2]
  | case3 st trace o e h1 h2 action h3 =>
      have hg := gatePorts_brain_eq P junk goal mc o e st h1 h2
      have h3e : ((P.brain goal mc o e st).type.getD "" == "STOP") = true := h3
      rw [runLoop]; conv_rhs => rw [runLoop]
      simp [h1, h2, hg, h3e]
  | case4 st trace o e h1 h2 action h3 h4 =>
      have hg := gatePorts_brain_eq P junk goal mc o e st h1 h2
      have h3e : ((P.brain goal mc o e st).type.getD "" == "STOP") = false := by
        simpa using h3
      have h4e : ((P.brain goal mc o e st).type.getD "" == "RESPONSE") = true := h4
      rw [runLoop]; conv_rhs => rw [runLoop]
      simp [h1, h2, hg, h3e, h4e]
  | case5 st trace o e h1 h2 action h3 h4 h5 =>
      have hg := gatePorts_brain_eq P junk goal mc o e st h1 h2
      have h3e : ((P.brain goal mc o e st).type.getD "" == "STOP") = false := by
        simpa using h3
      have h4e : ((P.brain goal mc o e st).type.getD "" == "RESPONSE") = false := by
        simpa using h4
      have h5e : (isRepeatedAction st.lastActions (P.brain goal mc o e st)).1 = true := h5
      rw [runLoop]; conv_rhs => rw [runLoop]
      simp [h1, h2, hg, h3e, h4e, h5e]
  | case6 st trace o e h1 h2 action h3 h4 h5 dec h6 =>
      have hg := gatePorts_brain_eq P junk goal mc o e st h1 h2
      have h3e : ((P.brain goal mc o e st).type.getD "" == "STOP") = false := by
        simpa using h3
      have h4e : ((P.brain goal mc o e st).type.getD "" == "RESPONSE") = false := by
        simpa using h4
      have h5e : (isRepeatedAction st.lastActions (P.brain goal mc o e st)).1 = false := by
        simpa using h5
      have h6p : ¬(Safety.check perms (P.brain goal mc o e st)).decision = SafetyDecisionType.ALLOW
          ∧ ¬(Safety.check perms (P.brain goal mc o e st)).decision = SafetyDecisionType.CONFIRM := by
        simpa using h6
      rw [runLoop]; conv_rhs => rw [runLoop]
      simp [h1, h2, hg, h3e, h4e, h5e, h6p.1, h6p.2]
  | case7 st trace o e h1 h2 action h3 h4 h5 st1 dec h6 r hr st2 obs ts ih =>
      have hg := gatePorts_brain_eq P junk goal mc o e st h1 h2
      have h3e : ((P.brain goal mc o e st).type.getD "" == "STOP") = false := by
        simpa using h3
      have h4e : ((P.brain goal mc o e st).type.getD "" == "RESPONSE") = false := by
        simpa using h4
      have h5e : (isRepeatedAction st.lastActions (P.brain goal mc o e st)).1 = false := by
        simpa using h5
      have h6p : (Safety.check perms (P.brain goal mc o e st)).decision = SafetyDecisionType.ALLOW
          ∨ (Safety.check perms (P.brain goal mc o e st)).decision = SafetyDecisionType.CONFIRM := by
        have h6b : ¬(Safety.check perms (P.brain goal mc o e st)).decision = SafetyDecisionType.ALLOW
            → (Safety.check perms (P.brain goal mc o e st)).decision = SafetyDecisionType.CONFIRM := by
          simpa using h6
        by_cases hA : (Safety.check perms (P.brain goal mc o e st)).decision = SafetyDecisionType.ALLOW
        · exact Or.inl hA
        · exact Or.inr (h6b hA)
      have hcond : ¬(¬(Safety.check perms (P.brain goal mc o e st)).decision = SafetyDecisionType.ALLOW
          ∧ ¬(Safety.check perms (P.brain goal mc o e st)).decision = SafetyDecisionType.CONFIRM) := by
        rcases h6p with h | h <;> simp [h]
      have hre : P.execute (P.brain goal mc o e st) = Except.ok r := hr
      rw [runLoop]; conv_rhs => rw [runLoop]
      simp [h1, h2, hg, h3e, h4e, h5e, hcond, hre, gatePorts_execute, gatePorts_observe]
      exact ih
  | case8 st trace o e h1 h2 action h3 h4 h5 st1 dec h6 er hr st2 obs ts ih =>
      have hg := gatePorts_brain_eq P junk goal mc o e st h1 h2
      have h3e : ((P.brain goal mc o e st).type.getD "" == "STOP") = false := by
        simpa using h3
      have h4e : ((P.brain goal mc o e st).type.getD "" == "RESPONSE") = false := by
        simpa using h4
      have h5e : (isRepeatedAction st.lastActions (P.brain goal mc o e st)).1 = false := by
        simpa using h5
      have h6p : (Safety.check perms (P.brain goal mc o e st)).decision = SafetyDecisionType.ALLOW
          ∨ (Safety.check perms (P.brain goal mc o e st)).decision = SafetyDecisionType.CONFIRM := by
        have h6b : ¬(Safety.check perms (P.brain goal mc o e st)).decision = SafetyDecisionType.ALLOW
            → (Safety.check perms (P.brain goal mc o e st)).decision = SafetyDecisionType.CONFIRM := by
          simpa using h6
        by_cases hA : (Safety.check perms (P.brain goal mc o e st)).decision = SafetyDecisionType.ALLOW
        · exact Or.inl hA
        · exact Or.inr (h6b hA)
      have hcond : ¬(¬(Safety.check perms (P.brain goal mc o e st)).decision = SafetyDecisionType.ALLOW
          ∧ ¬(Safety.check perms (P.brain goal mc o e st)).decision = SafetyDecisionType.CONFIRM) := by
        rcases h6p with h | h <;> simp [h]
      have hre : P.execute (P.brain goal mc o e st) = Except.error er := hr
      rw [runLoop]; conv_rhs => rw [runLoop]
      simp [h1, h2, hg, h3e, h4e, h5e, hcond, hre, gatePorts_execute, gatePorts_observe]
      exact ih

theorem sigBeq_stepAction_false (m n : Nat) (h : m ≠ n) :
    sigBeq (sigOf (stepAction m)) (sigOf (stepAction n)) = false := by
  simp [sigBeq, sigOf, stepAction, dictBeq, lookupKey]
  intro hmn
  exact absurd (by exact_mod_cast hmn) (Ne.symm h)

theorem stepHistory (L : List ActionSig) (s : Nat)
    (hL : ∀ sig ∈ L, ∃ j, j < s ∧ sig = sigOf (stepAction j)) :
    (isRepeatedAction L (stepAction s)).1 = false ∧
    (∀ sig ∈ (isRepeatedAction L (stepAction s)).2,
      ∃ j, j < s + 1 ∧ sig = sigOf (stepAction j)) := by
  have htype : ((stepAction s).type == some "ACTION") = true := by simp [stepAction]
  unfold isRepeatedAction
  simp only [htype, Bool.not_true, Bool.false_eq_true, if_false]
  cases hlast : L.getLast? with
  | none =>
      have hnil : L = [] := by
        cases L with
        | nil => rfl
        | cons a t =>
            exfalso
            have hs : ((a :: t).getLast?).isSome := List.getLast?_isSome.mpr (by simp)
            rw [hlast] at hs
            simp at hs
      subst hnil
      refine ⟨rfl, ?_⟩
      intro sig hsig
      simp at hsig
      exact ⟨s, by omega, hsig⟩
  | some lastSig =>
      have hmem : lastSig ∈ L := List.mem_of_mem_getLast? hlast
      obtain ⟨j, hj, hsigj⟩ := hL lastSig hmem
      have hne : sigBeq (sigOf (stepAction s)) lastSig = false := by
        rw [hsigj]
        exact sigBeq_stepAction_false s j (by omega)
      simp only [hne, Bool.false_eq_true, if_false]
      refine ⟨trivial, ?_⟩
      intro sig hsig
      by_cases hlen : (L ++ [sigOf (stepAction s)]).length > 3
      · simp only [if_pos hlen] at hsig
        have hsub : sig ∈ L ++ [sigOf (stepAction s)] := List.mem_of_mem_tail hsig
        rcases List.mem_append.mp hsub with hmL | hmr
        · obtain ⟨j2, hj2, he⟩ := hL sig hmL
          exact ⟨j2, by omega, he⟩
        · simp at hmr
          exact ⟨s, by omega, hmr⟩
      · simp only [if_neg hlen] at hsig
        rcases List.mem_append.mp hsig with hmL | hmr
        · obtain ⟨j2, hj2, he⟩ := hL sig hmL
          exact ⟨j2, by omega, he⟩
        · simp at hmr
          exact ⟨s, by omega, hmr⟩

theorem check_stepAction (s : Nat) :
    Safety.check emptyPerms (stepAction s) =
      ⟨SafetyDecisionType.CONFIRM, SafetyLevel.MEDIUM, "Requires user confirmation"⟩ := by
  simp [Safety.check, Safety.actionKey, SafetyPolicy.classify, stepAction, emptyPerms,
        PermissionStore.isDenied, PermissionStore.isAllowed, getParamStr, lookupKey,
        strHasSub, listHasSub]

theorem runLoop_allFail (exec : Action → Except String String)
    (obs : Action → Option String → Option String → String) (goal mc : String) :
    ∀ (k : Nat) (st : AgentState) (trace : ExecutionTrace) (o e : Option String),
      st.maxFailures - st.failureCount = k →
      st.failureCount ≤ st.maxFailures →
      st.stepCount + k < st.maxSteps →
      (∀ n, st.stepCount ≤ n → ∃ msg, exec (stepAction n) = Except.error msg) →
      (∀ sig ∈ st.lastActions, ∃ j, j < st.stepCount ∧ sig = sigOf (stepAction j)) →
      (runLoop emptyPerms ⟨stepOracle, exec, obs⟩ goal mc st trace o e).1.success = false ∧
      (runLoop emptyPerms ⟨stepOracle, exec, obs⟩ goal mc st trace o e).1.message =
        "Stopped: too many consecutive failures." ∧
      (runLoop emptyPerms ⟨stepOracle, exec, obs⟩ goal mc st trace o e).1.trace.length =
        trace.length + k ∧
      (runLoop emptyPerms ⟨stepOracle, exec, obs⟩ goal mc st trace o e).2.stepCount =
        st.stepCount + k := by
  intro k
  induction k with
  | zero =>
      intro st trace o e hk hle hsteps hfail hhist
      rw [runLoop]
      have hs : ¬st.maxSteps ≤ st.stepCount := by omega
      have hf : st.maxFailures ≤ st.failureCount := by omega
      simp [hs, hf]
  | succ k ih =>
      intro st trace o e hk hle hsteps hfail hhist
      have hs : ¬st.maxSteps ≤ st.stepCount := by omega
      have hf : ¬st.maxFailures ≤ st.failureCount := by omega
      have hrep := stepHistory st.lastActions st.stepCount hhist
      obtain ⟨msg, hmsg⟩ := hfail st.stepCount (le_refl _)
      rw [runLoop]
      have hbrain : (Ports.mk stepOracle exec obs).brain goal mc o e st
          = stepAction st.stepCount := rfl
      rw [hbrain]
      have htS : ((stepAction st.stepCount).type.getD "" == "STOP") = false := by
        simp [stepAction]
      have htR : ((stepAction st.stepCount).type.getD "" == "RESPONSE") = false := by
        simp [stepAction]
      have hchk := check_stepAction st.stepCount
      have hcond : ¬(¬(Safety.check emptyPerms (stepAction st.stepCount)).decision
            = SafetyDecisionType.ALLOW
          ∧ ¬(Safety.check emptyPerms (stepAction st.stepCount)).decision
            = SafetyDecisionType.CONFIRM) := by
        rw [hchk]
        simp
      have hbool : (!((Safety.check emptyPerms (stepAction st.stepCount)).decision
            == SafetyDecisionType.ALLOW
          || (Safety.check emptyPerms (stepAction st.stepCount)).decision
            == SafetyDecisionType.CONFIRM)) = true ↔ False := by
        rw [hchk]
        simp
      rw [dif_neg hs, dif_neg hf, if_neg (by simp [htS]), if_neg (by simp [htR]),
          if_neg (by simp [hrep.1]), if_neg hbool.mp]
      have hex : (Ports.mk stepOracle exec obs).execute (stepAction st.stepCount)
          = Except.error msg := hmsg
      rw [hex]
      dsimp only
      obtain ⟨iA, iB, iC, iD⟩ :=
        ih ⟨st.stepCount + 1, st.failureCount + 1, st.maxSteps, st.maxFailures,
             (isRepeatedAction st.lastActions (stepAction st.stepCount)).2⟩
          (trace ++ [⟨st.stepCount, stepAction st.stepCount, false, none,
             obs (stepAction st.stepCount) none (some msg), some msg⟩])
          (some (obs (stepAction st.stepCount) none (some msg))) (some msg)
          (by simp; omega) (by simp; omega) (by simp; omega)
          (fun n hn => hfail n (by simp at hn; omega))
          (fun sig hsig => hrep.2 sig hsig)
      refine ⟨iA, iB, ?_, ?_⟩
      · rw [iC]
        simp
        omega
      · rw [iD]
        simp
        omega

/-- Claim C1 (code bug evaluation): for the action invoking the
registered shell tool `SHELL_EXECUTE` with a command containing `rm`,
`SafetyPolicy.classify` returns MEDIUM (its destructive-shell rule is
keyed on the stale tool name `run_shell`, which no registered tool
bears), `Safety.check` with empty caches returns CONFIRM, and the run
does not terminate with a denial: the action is dispatched (one trace
step, recorded successful) and the run ends successfully via loop
detection with the command echoed in the message — not with
`success = false` and an empty trace as the claim requires. -/
theorem C1_shell_rm_dispatched :
    SafetyPolicy.classify rmAction = SafetyLevel.MEDIUM ∧
    Safety.check emptyPerms rmAction =
      ⟨SafetyDecisionType.CONFIRM, SafetyLevel.MEDIUM, "Requires user confirmation"⟩ ∧
    (freshRun emptyPerms rmPorts retrNull 15 4 "wipe").1 =
      ⟨true, "⚡ Command executed: rm -rf /tmp/aura",
       [⟨0, rmAction, true, some "", "Action completed. Result: ", none⟩]⟩ ∧
    (freshRun emptyPerms rmPorts retrNull 15 4 "wipe").1.success ≠ false ∧
    (freshRun emptyPerms rmPorts retrNull 15 4 "wipe").1.trace.length ≠ 0 := by
  have h1 : SafetyPolicy.classify rmAction = SafetyLevel.MEDIUM := by decide
  have h2 : Safety.check emptyPerms rmAction =
      ⟨SafetyDecisionType.CONFIRM, SafetyLevel.MEDIUM, "Requires user confirmation"⟩ := by
    decide
  have h3 : (freshRun emptyPerms rmPorts retrNull 15 4 "wipe").1 =
      ⟨true, "⚡ Command executed: rm -rf /tmp/aura",
       [⟨0, rmAction, true, some "", "Action completed. Result: ", none⟩]⟩ := by
    unfold freshRun runOn
    rw [runLoop]
    simp [initState, rmPorts, constOracle, rmAction, isRepeatedAction, sigOf, sigBeq,
          Safety.check, Safety.actionKey, SafetyPolicy.classify, emptyPerms,
          PermissionStore.isDenied, PermissionStore.isAllowed, getParamStr, lookupKey,
          strHasSub, listHasSub, Executor.execute, okToolRun, registeredTools,
          VoiceEngine.observe]
    rw [runLoop]
    simp [constOracle, isRepeatedAction, sigOf, sigBeq, dictBeq, lookupKey,
          smartTerminate, getParamStr, rmAction]
  exact ⟨h1, h2, h3, by rw [h3]; decide, by rw [h3]; decide⟩

/-- Claim C2 (amended): an oracle answering RESPONSE on the first think
call ends the run with `success = true` and the oracle-supplied message
(or the fixed fallback), but with a trace of length 0, since RESPONSE
returns before the act / observe / trace stage. -/
theorem C2_response_first_think (perms : PermissionStore) (P : Ports)
    (retrieve : String → String) (maxS maxF : Nat) (goal : String) (a : Action)
    (hS : 0 < maxS) (hF : 0 < maxF)
    (hb : P.brain goal (retrieve goal) none none (initState maxS maxF) = a)
    (ht : a.type = some "RESPONSE") :
    (freshRun perms P retrieve maxS maxF goal).1 =
      ⟨true, a.message.getD "I don\x27t have a response.", []⟩ := by
  unfold freshRun runOn
  rw [runLoop]
  rw [hb]
  simp [initState, ht, hS.ne', hF.ne']

/-- Claim C2, counterexample: with the oracle responding `"hi"` on the
first think call, the run returns `success = true` and message `"hi"`,
but the trace has length 0, not 1 as the claim states. -/
theorem C2_counterexample :
    (freshRun emptyPerms (respPorts (some "hi")) retrNull 15 4 "goal").1 =
      ⟨true, "hi", []⟩ ∧
    (freshRun emptyPerms (respPorts (some "hi")) retrNull 15 4 "goal").1.trace.length ≠ 1 := by
  have h : (freshRun emptyPerms (respPorts (some "hi")) retrNull 15 4 "goal").1 =
      ⟨true, "hi", []⟩ := by
    unfold freshRun runOn
    rw [runLoop]
    simp [initState, respPorts, constOracle, responseAction]
  exact ⟨h, by rw [h]; decide⟩

/-- Claim C2, witness for the amended theorem at a concrete input. -/
theorem C2_witness :
    (freshRun emptyPerms (respPorts (some "hi")) retrNull 15 4 "goal").1 =
      ⟨true, "hi", []⟩ :=
  C2_response_first_think emptyPerms (respPorts (some "hi")) retrNull 15 4 "goal"
    (responseAction (some "hi")) (by decide) (by decide) rfl rfl

/-- Claim C3 (amended): an oracle output missing the kind discriminator
is converted by `Brain.next_action` into a STOP action with the fixed
malformed-action message, so the run terminates immediately with that
message, an empty trace (no dispatch), and `success = true` — not
`false`.  An output with an unrecognized kind is not terminal: the
controller forwards it to safety and dispatch, the executor rejects the
non-ACTION kind, and the rejection counts as an ordinary execution
failure each iteration until the failure budget trips (no crash). -/
theorem C3_malformed_handling (perms : PermissionStore) (P : Ports)
    (retrieve : String → String) (maxS maxF : Nat) (goal : String) (raw : Action)
    (hS : 0 < maxS) (hF : 0 < maxF)
    (hb : P.brain goal (retrieve goal) none none (initState maxS maxF) = brainValidate raw)
    (ht : raw.type = none) :
    (freshRun perms P retrieve maxS maxF goal).1 =
      ⟨true, "Stopped due to malformed action (missing \x27type\x27).", []⟩ ∧
    ((freshRun emptyPerms unknownKindPorts retrNull 15 4 "g").1.success = false ∧
     (freshRun emptyPerms unknownKindPorts retrNull 15 4 "g").1.message =
       "Stopped: too many consecutive failures." ∧
     (freshRun emptyPerms unknownKindPorts retrNull 15 4 "g").1.trace.length = 4 ∧
     ∀ ts ∈ (freshRun emptyPerms unknownKindPorts retrNull 15 4 "g").1.trace,
       ts.error = some "Executor received non-ACTION type") := by
  constructor
  · unfold freshRun runOn
    rw [runLoop]
    rw [hb]
    unfold brainValidate
    rw [ht]
    simp [initState, hS.ne', hF.ne']
  · have h : freshRun emptyPerms unknownKindPorts retrNull 15 4 "g" =
        (⟨false, "Stopped: too many consecutive failures.",
          [⟨0, unknownKindAction, false, none,
            "Action failed with error: Executor received non-ACTION type",
            some "Executor received non-ACTION type"⟩,
           ⟨1, unknownKindAction, false, none,
            "Action failed with error: Executor received non-ACTION type",
            some "Executor received non-ACTION type"⟩,
           ⟨2, unknownKindAction, false, none,
            "Action failed with error: Executor received non-ACTION type",
            some "Executor received non-ACTION type"⟩,
           ⟨3, unknownKindAction, false, none,
            "Action failed with error: Executor received non-ACTION type",
            some "Executor received non-ACTION type"⟩]⟩,
         ⟨4, 4, 15, 4, []⟩) := by
      unfold freshRun runOn
      simp [runLoop, initState, unknownKindPorts, constOracle, unknownKindAction,
            isRepeatedAction, Safety.check, Safety.actionKey, SafetyPolicy.classify,
            emptyPerms, PermissionStore.isDenied, PermissionStore.isAllowed,
            getParamStr, lookupKey, strHasSub, listHasSub, Executor.execute,
            okToolRun, registeredTools, pyStrOfOptStr, pyStrOfOptDict,
            VoiceEngine.observe]
    rw [h]
    refine ⟨rfl, rfl, rfl, ?_⟩
    decide

/-- Claim C3, counterexample: with the oracle output missing the
discriminator, the run terminates with `success = true` — the claim
asserts `success = false`. -/
theorem C3_counterexample :
    (freshRun emptyPerms malformedPorts retrNull 15 4 "g").1 =
      ⟨true, "Stopped due to malformed action (missing \x27type\x27).", []⟩ ∧
    (freshRun emptyPerms malformedPorts retrNull 15 4 "g").1.success ≠ false := by
  have h : (freshRun emptyPerms malformedPorts retrNull 15 4 "g").1 =
      ⟨true, "Stopped due to malformed action (missing \x27type\x27).", []⟩ := by
    unfold freshRun runOn
    rw [runLoop]
    simp [initState, malformedPorts, brainValidate, typelessAction]
  exact ⟨h, by rw [h]; decide⟩

/-- Claim C3, witness for the amended theorem at a concrete input. -/
theorem C3_witness :
    (freshRun emptyPerms malformedPorts retrNull 15 4 "g").1 =
      ⟨true, "Stopped due to malformed action (missing \x27type\x27).", []⟩ :=
  (C3_malformed_handling emptyPerms malformedPorts retrNull 15 4 "g" typelessAction
    (by decide) (by decide) rfl rfl).1

/-- Claim C4 (amended): run state and trace are created once per
controller (`CoreAgentController.__init__`), and `run` never resets
them: every run's result trace extends the controller's pre-existing
trace, so a second `run()` on the same controller carries the earlier
run's steps and counters forward.  Fresh counters and an empty trace
require a fresh controller (`initState`, empty trace). -/
theorem C4_trace_accumulates (perms : PermissionStore) (P : Ports)
    (retrieve : String → String) (st : AgentState) (trace : ExecutionTrace)
    (goal : String) :
    trace <+: (runOn perms P retrieve st trace goal).1.trace := by
  unfold runOn
  exact runLoop_trace_grows perms P goal (retrieve goal) st trace none none

/-- Claim C4, counterexample: a first run leaves one trace step and
advanced counters in the controller; a second `run()` on the same
controller terminates immediately via STOP, yet its AgentResult's trace
still has length 1 — it contains the step left over from the first run,
contradicting the claim that every `run(goal)` call begins with fresh
counters and an empty trace. -/
theorem C4_counterexample :
    runOn emptyPerms c4ports retrNull (initState 15 4) [] "g1" =
      (⟨true, "done",
        [⟨0, openAppAction, true, some "", "Action completed. Result: ", none⟩]⟩,
       ⟨1, 0, 15, 4, [sigOf openAppAction]⟩) ∧
    (runOn emptyPerms c4ports retrNull
        (runOn emptyPerms c4ports retrNull (initState 15 4) [] "g1").2
        (runOn emptyPerms c4ports retrNull (initState 15 4) [] "g1").1.trace
        "g2").1.trace =
      [⟨0, openAppAction, true, some "", "Action completed. Result: ", none⟩] ∧
    (runOn emptyPerms c4ports retrNull
        (runOn emptyPerms c4ports retrNull (initState 15 4) [] "g1").2
        (runOn emptyPerms c4ports retrNull (initState 15 4) [] "g1").1.trace
        "g2").1.trace.length ≠ 0 := by
  have h1 : runOn emptyPerms c4ports retrNull (initState 15 4) [] "g1" =
      (⟨true, "done",
        [⟨0, openAppAction, true, some "", "Action completed. Result: ", none⟩]⟩,
       ⟨1, 0, 15, 4, [sigOf openAppAction]⟩) := by
    unfold runOn
    simp [runLoop, initState, c4ports, c4brain, openAppAction, stopAction,
          isRepeatedAction, sigOf, sigBeq, dictBeq, Safety.check, Safety.actionKey,
          SafetyPolicy.classify, emptyPerms, PermissionStore.isDenied,
          PermissionStore.isAllowed, getParamStr, lookupKey, strHasSub, listHasSub,
          Executor.execute, okToolRun, registeredTools, VoiceEngine.observe]
  have h2 : (runOn emptyPerms c4ports retrNull
      (runOn emptyPerms c4ports retrNull (initState 15 4) [] "g1").2
      (runOn emptyPerms c4ports retrNull (initState 15 4) [] "g1").1.trace
      "g2").1.trace =
      [⟨0, openAppAction, true, some "", "Action completed. Result: ", none⟩] := by
    rw [h1]
    unfold runOn
    rw [runLoop]
    simp [c4ports, c4brain, stopAction]
  exact ⟨h1, h2, by rw [h2]; decide⟩

/-- Claim C5 (amended): `_is_repeated_action` records the proposed
ACTION's signature only when it does not match the most recent recorded
signature — on a match it returns early and the history is left
untouched — and the history is bounded by depth 3 with the oldest entry
evicted first. -/
theorem C5_history_update (L : List ActionSig) (a : Action) (hlen : L.length ≤ 3) :
    ((isRepeatedAction L a).1 = true → (isRepeatedAction L a).2 = L) ∧
    (a.type = some "ACTION" → (isRepeatedAction L a).1 = false →
      (isRepeatedAction L a).2 = (L ++ [sigOf a]).drop (L.length + 1 - 3) ∧
      (isRepeatedAction L a).2.getLast? = some (sigOf a)) ∧
    (isRepeatedAction L a).2.length ≤ 3 := by
  unfold isRepeatedAction
  by_cases htype : (a.type == some "ACTION") = true
  · simp only [htype, Bool.not_true, Bool.false_eq_true, if_false]
    cases hlast : L.getLast? with
    | none =>
        have hnil : L = [] := by
          cases L with
          | nil => rfl
          | cons x t =>
              exfalso
              have hs : ((x :: t).getLast?).isSome := List.getLast?_isSome.mpr (by simp)
              rw [hlast] at hs
              simp at hs
        subst hnil
        simp
    | some lastSig =>
        by_cases hbeq : sigBeq (sigOf a) lastSig = true
        · simp only [hbeq, if_true]
          refine ⟨fun _ => trivial, fun _ hfalse => by simp at hfalse, by simpa using hlen⟩
        · simp only [Bool.not_eq_true] at hbeq
          simp only [hbeq, Bool.false_eq_true, if_false]
          by_cases hgt : (L ++ [sigOf a]).length > 3
          · have h3 : L.length = 3 := by
              simp at hgt
              omega
            cases L with
            | nil => simp at h3
            | cons x t =>
                have ht2 : t.length = 2 := by simpa using h3
                refine ⟨fun h => by simp at h, fun _ _ => ?_, ?_⟩
                · rw [if_pos (by simpa using hgt)]
                  constructor
                  · have hidx : (x :: t).length + 1 - 3 = 1 := by
                      rw [h3]
                    rw [hidx]
                    rfl
                  · show (t ++ [sigOf a]).getLast? = some (sigOf a)
                    exact List.getLast?_concat _
                · rw [if_pos (by simpa using hgt)]
                  show (t ++ [sigOf a]).length ≤ 3
                  simp [ht2]
          · refine ⟨fun h => by simp at h, fun _ _ => ?_, ?_⟩
            · rw [if_neg hgt]
              have hidx : L.length + 1 - 3 = 0 := by
                simp at hgt
                omega
              rw [hidx]
              exact ⟨rfl, List.getLast?_concat _⟩
            · rw [if_neg hgt]
              simp at hgt ⊢
              omega
  · simp only [htype, Bool.not_false]
    simp only [Bool.not_eq_true] at htype
    refine ⟨fun h => by simp at h, fun hty => ?_, by simpa using hlen⟩
    exfalso
    rw [hty] at htype
    simp at htype

/-- Claim C5, counterexample: when the proposed ACTION matches the most
recent recorded signature, `_is_repeated_action` reports the loop but
does not record the signature — the buffer still holds 1 entry, not 2,
contradicting "appends ... regardless of match outcome". -/
theorem C5_counterexample :
    isRepeatedAction [sigOf xAction] xAction = (true, [sigOf xAction]) ∧
    (isRepeatedAction [sigOf xAction] xAction).2.length ≠ 2 := by
  decide

/-- Claim C5, witness for the amended theorem at a concrete input. -/
theorem C5_witness :
    ((isRepeatedAction [sigOf xAction] xAction).1 = true →
      (isRepeatedAction [sigOf xAction] xAction).2 = [sigOf xAction]) ∧
    (xAction.type = some "ACTION" →
      (isRepeatedAction [sigOf xAction] xAction).1 = false →
      (isRepeatedAction [sigOf xAction] xAction).2 =
        ([sigOf xAction] ++ [sigOf xAction]).drop ([sigOf xAction].length + 1 - 3) ∧
      (isRepeatedAction [sigOf xAction] xAction).2.getLast? = some (sigOf xAction)) ∧
    (isRepeatedAction [sigOf xAction] xAction).2.length ≤ 3 :=
  C5_history_update [sigOf xAction] xAction (by decide)

/-- Claim C6 (amended): failure counting is consecutive — dispatch
failures accumulate and a success resets the budget — and in a run
whose dispatched actions all fail (successive signatures distinct, and
`max_failures` strictly below `max_steps` so the failure check fires
before the step check), the run ends with `success = false`, the fixed
"too many consecutive failures" message, and trace length exactly
`max_failures`; moreover after an initial successful dispatch the run
survives `max_failures - 1` further failures and ends only after
`max_failures` of them, with trace length `max_failures + 1` whose
first step is the recorded success. -/
theorem C6_failure_budget (exec exec2 : Action → Except String String)
    (obs obs2 : Action → Option String → Option String → String)
    (retrieve retrieve2 : String → String) (goal goal2 : String)
    (maxS maxF maxS2 maxF2 : Nat)
    (hS : maxF < maxS)
    (hfail : ∀ a : Action, ∃ msg, exec a = Except.error msg)
    (hF2 : 0 < maxF2) (hS2 : maxF2 + 1 < maxS2)
    (hok : ∃ rr, exec2 (stepAction 0) = Except.ok rr)
    (hfail2 : ∀ n, 1 ≤ n → ∃ msg, exec2 (stepAction n) = Except.error msg) :
    ((freshRun emptyPerms ⟨stepOracle, exec, obs⟩ retrieve maxS maxF goal).1.success = false ∧
     (freshRun emptyPerms ⟨stepOracle, exec, obs⟩ retrieve maxS maxF goal).1.message =
       "Stopped: too many consecutive failures." ∧
     (freshRun emptyPerms ⟨stepOracle, exec, obs⟩ retrieve maxS maxF goal).1.trace.length = maxF) ∧
    ((freshRun emptyPerms ⟨stepOracle, exec2, obs2⟩ retrieve2 maxS2 maxF2 goal2).1.success = false ∧
     (freshRun emptyPerms ⟨stepOracle, exec2, obs2⟩ retrieve2 maxS2 maxF2 goal2).1.message =
       "Stopped: too many consecutive failures." ∧
     (freshRun emptyPerms ⟨stepOracle, exec2, obs2⟩ retrieve2 maxS2 maxF2 goal2).1.trace.length =
       maxF2 + 1 ∧
     ((freshRun emptyPerms ⟨stepOracle, exec2, obs2⟩ retrieve2 maxS2 maxF2 goal2).1.trace.head?).map
        TraceStep.success = some true) := by
  constructor
  · obtain ⟨A, B, C, D⟩ :=
      runLoop_allFail exec obs goal (retrieve goal) maxF (initState maxS maxF) [] none none
        (by simp [initState]) (by simp [initState]) (by simp [initState]; omega)
        (fun n _ => hfail (stepAction n)) (by simp [initState])
    refine ⟨A, B, ?_⟩
    rw [show (freshRun emptyPerms ⟨stepOracle, exec, obs⟩ retrieve maxS maxF goal)
        = runLoop emptyPerms ⟨stepOracle, exec, obs⟩ goal (retrieve goal)
            (initState maxS maxF) [] none none from rfl]
    rw [C]
    simp
  · obtain ⟨rr, hokr⟩ := hok
    unfold freshRun runOn
    rw [runLoop]
    have hs0 : ¬(initState maxS2 maxF2).maxSteps ≤ (initState maxS2 maxF2).stepCount := by
      simp [initState]; omega
    have hf0 : ¬(initState maxS2 maxF2).maxFailures ≤ (initState maxS2 maxF2).failureCount := by
      simp [initState]; omega
    rw [dif_neg hs0, dif_neg hf0]
    have hbrain : (Ports.mk stepOracle exec2 obs2).brain goal2 (retrieve2 goal2) none none
        (initState maxS2 maxF2) = stepAction 0 := rfl
    rw [hbrain]
    rw [if_neg (by simp [stepAction]), if_neg (by simp [stepAction])]
    have hrep0 : (isRepeatedAction (initState maxS2 maxF2).lastActions (stepAction 0)).1
        = false := rfl
    rw [if_neg (by simp [hrep0])]
    rw [if_neg (by rw [check_stepAction]; decide)]
    have hex : (Ports.mk stepOracle exec2 obs2).execute (stepAction 0) = Except.ok rr := hokr
    rw [hex]
    dsimp only
    simp only [initState, List.nil_append]
    obtain ⟨A, B, C, D⟩ :=
      runLoop_allFail exec2 obs2 goal2 (retrieve2 goal2) maxF2
        ⟨0 + 1, 0, maxS2, maxF2, (isRepeatedAction [] (stepAction 0)).2⟩
        [⟨0, stepAction 0, true, some rr, obs2 (stepAction 0) (some rr) none, none⟩]
        (some (obs2 (stepAction 0) (some rr) none)) none
        (by simp) (by simp) (by simp; omega)
        (fun n hn => hfail2 n (by simp at hn; omega))
        (by
          intro sig hsig
          have hsets : (isRepeatedAction [] (stepAction 0)).2 = [sigOf (stepAction 0)] := rfl
          rw [hsets] at hsig
          simp at hsig
          exact ⟨0, by simp, hsig⟩)
    refine ⟨A, B, by rw [C]; simp; omega, ?_⟩
    obtain ⟨tl, htl⟩ :=
      runLoop_trace_grows emptyPerms ⟨stepOracle, exec2, obs2⟩ goal2 (retrieve2 goal2)
        ⟨0 + 1, 0, maxS2, maxF2, (isRepeatedAction [] (stepAction 0)).2⟩
        [⟨0, stepAction 0, true, some rr, obs2 (stepAction 0) (some rr) none, none⟩]
        (some (obs2 (stepAction 0) (some rr) none)) none
    rw [← htl]
    simp

/-- Claim C6, counterexample: with `max_failures = max_steps = 1`, an
always-failing dispatcher, and step-indexed (pairwise distinct) oracle
actions — an input satisfying the claim's premise `max_failures ≤
max_steps` — the run ends with the step-limit message, not the
"too many consecutive failures" message the claim requires, because the
step check precedes the failure check. -/
theorem C6_counterexample :
    (freshRun emptyPerms c6ports retrNull 1 1 "g").1 =
      ⟨false, "Stopped: maximum step limit reached.",
       [⟨0, stepAction 0, false, none, "Action failed with error: boom", some "boom"⟩]⟩ ∧
    (freshRun emptyPerms c6ports retrNull 1 1 "g").1.message ≠
      "Stopped: too many consecutive failures." ∧
    (1 : Nat) ≤ 1 := by
  have h : (freshRun emptyPerms c6ports retrNull 1 1 "g").1 =
      ⟨false, "Stopped: maximum step limit reached.",
       [⟨0, stepAction 0, false, none, "Action failed with error: boom", some "boom"⟩]⟩ := by
    unfold freshRun runOn
    simp [runLoop, initState, c6ports, stepOracle, stepAction, failExec,
          isRepeatedAction, sigOf, sigBeq, dictBeq, Safety.check, Safety.actionKey,
          SafetyPolicy.classify, emptyPerms, PermissionStore.isDenied,
          PermissionStore.isAllowed, getParamStr, lookupKey, strHasSub, listHasSub,
          VoiceEngine.observe]
  exact ⟨h, by rw [h]; decide, by decide⟩

/-- Claim C6, witness for the amended theorem at a concrete input. -/
theorem C6_witness :
    ((freshRun emptyPerms ⟨stepOracle, failExec, VoiceEngine.observe⟩ retrNull 15 4 "g").1.success
        = false ∧
     (freshRun emptyPerms ⟨stepOracle, failExec, VoiceEngine.observe⟩ retrNull 15 4 "g").1.message =
       "Stopped: too many consecutive failures." ∧
     (freshRun emptyPerms ⟨stepOracle, failExec, VoiceEngine.observe⟩ retrNull 15 4 "g").1.trace.length
        = 4) ∧
    ((freshRun emptyPerms ⟨stepOracle, firstOkExec, VoiceEngine.observe⟩ retrNull 15 4 "g2").1.success
        = false ∧
     (freshRun emptyPerms ⟨stepOracle, firstOkExec, VoiceEngine.observe⟩ retrNull 15 4 "g2").1.message =
       "Stopped: too many consecutive failures." ∧
     (freshRun emptyPerms ⟨stepOracle, firstOkExec, VoiceEngine.observe⟩ retrNull 15 4 "g2").1.trace.length
        = 4 + 1 ∧
     ((freshRun emptyPerms ⟨stepOracle, firstOkExec, VoiceEngine.observe⟩ retrNull 15 4 "g2").1.trace.head?).map
        TraceStep.success = some true) :=
  C6_failure_budget failExec firstOkExec VoiceEngine.observe VoiceEngine.observe
    retrNull retrNull "g" "g2" 15 4 15 4 (by decide)
    (fun _ => ⟨"boom", rfl⟩) (by decide) (by decide)
    ⟨"fine", rfl⟩
    (fun n hn => ⟨"boom", by
      simp [firstOkExec, stepAction, lookupKey]
      omega⟩)

/-- Claim C7 (confirmed): for a fresh run, `step_count` at termination
never exceeds `max_steps`; a run that terminated unsuccessfully with
the fixed "maximum step limit reached" message has `step_count` equal
to `max_steps`; and the budget checks precede the think stage — the run
is unchanged when the oracle is replaced by one consulted only in
states within both budgets (`gatePorts`), so the Decision Oracle Port
is never invoked while `step_count ≥ max_steps` or `failure_count ≥
max_failures`. -/
theorem C7_budget_invariants (perms : PermissionStore) (P : Ports)
    (retrieve : String → String) (maxS maxF : Nat) (goal : String) (junk : Action) :
    (freshRun perms P retrieve maxS maxF goal).2.stepCount ≤ maxS ∧
    ((freshRun perms P retrieve maxS maxF goal).1.success = false →
     (freshRun perms P retrieve maxS maxF goal).1.message =
       "Stopped: maximum step limit reached." →
     (freshRun perms P retrieve maxS maxF goal).2.stepCount = maxS) ∧
    freshRun perms P retrieve maxS maxF goal =
      freshRun perms (gatePorts P junk) retrieve maxS maxF goal := by
  obtain ⟨A, B, C⟩ :=
    runLoop_step_inv perms P goal (retrieve goal) (initState maxS maxF) [] none none
  refine ⟨B (by simp [initState]), fun hs hm => C (by simp [initState]) hs hm, ?_⟩
  exact Prod.ext
    (congrArg Prod.fst
      (runLoop_gate perms P junk goal (retrieve goal) (initState maxS maxF) [] none none))
    (congrArg Prod.snd
      (runLoop_gate perms P junk goal (retrieve goal) (initState maxS maxF) [] none none))

/-- Claim C7, witness at a concrete input. -/
theorem C7_witness :
    (freshRun emptyPerms c6ports retrNull 1 1 "g").2.stepCount ≤ 1 ∧
    ((freshRun emptyPerms c6ports retrNull 1 1 "g").1.success = false →
     (freshRun emptyPerms c6ports retrNull 1 1 "g").1.message =
       "Stopped: maximum step limit reached." →
     (freshRun emptyPerms c6ports retrNull 1 1 "g").2.stepCount = 1) ∧
    freshRun emptyPerms c6ports retrNull 1 1 "g" =
      freshRun emptyPerms (gatePorts c6ports stopAction) retrNull 1 1 "g" :=
  C7_budget_invariants emptyPerms c6ports retrNull 1 1 "g" stopAction

theorem permEvolve_denied_mono (p q : PermissionStore) (k : String)
    (h : PermEvolve p q) (hd : p.isDenied k = true) : q.isDenied k = true := by
  induction h with
  | refl => exact hd
  | allowStep q2 k2 hprev ih => exact ih
  | denyStep q2 k2 hprev ih =>
      simp only [PermissionStore.isDenied, PermissionStore.deny] at ih ⊢
      simp [List.contains_cons]
      exact Or.inr (by simpa using ih)

theorem permEvolve_allowed_mono (p q : PermissionStore) (k : String)
    (h : PermEvolve p q) (hd : p.isAllowed k = true) : q.isAllowed k = true := by
  induction h with
  | refl => exact hd
  | allowStep q2 k2 hprev ih =>
      simp only [PermissionStore.isAllowed, PermissionStore.allow] at ih ⊢
      simp [List.contains_cons]
      exact Or.inr (by simpa using ih)
  | denyStep q2 k2 hprev ih => exact ih

/-- Claim C8 (confirmed): `Safety.check` evaluates in fixed order —
deny cache (DENY / HIGH / "Action explicitly denied by user"), then
allow cache (ALLOW / LOW / "Previously approved action"), then the rule
classification mapped LOW to ALLOW, MEDIUM to CONFIRM and HIGH to DENY
— so once a signature is in the deny cache, every later store reachable
by further allow/deny operations still yields DENY for it regardless of
classification, and a signature in the allow cache yields ALLOW under
every later store in which it has not also been denied (the deny cache
is consulted first). -/
theorem C8_cache_precedence (p : PermissionStore) (action : Action)
    (q : PermissionStore) :
    (p.isDenied (Safety.actionKey action) = true →
      Safety.check p action =
        ⟨SafetyDecisionType.DENY, SafetyLevel.HIGH, "Action explicitly denied by user"⟩) ∧
    (p.isDenied (Safety.actionKey action) = false →
      p.isAllowed (Safety.actionKey action) = true →
      Safety.check p action =
        ⟨SafetyDecisionType.ALLOW, SafetyLevel.LOW, "Previously approved action"⟩) ∧
    (p.isDenied (Safety.actionKey action) = false →
      p.isAllowed (Safety.actionKey action) = false →
      Safety.check p action =
        (match SafetyPolicy.classify action with
         | SafetyLevel.LOW =>
             ⟨SafetyDecisionType.ALLOW, SafetyLevel.LOW, "Low-risk action"⟩
         | SafetyLevel.MEDIUM =>
             ⟨SafetyDecisionType.CONFIRM, SafetyLevel.MEDIUM, "Requires user confirmation"⟩
         | SafetyLevel.HIGH =>
             ⟨SafetyDecisionType.DENY, SafetyLevel.HIGH, "High-risk action blocked"⟩)) ∧
    (PermEvolve (p.deny (Safety.actionKey action)) q →
      Safety.check q action =
        ⟨SafetyDecisionType.DENY, SafetyLevel.HIGH, "Action explicitly denied by user"⟩) ∧
    (PermEvolve (p.allow (Safety.actionKey action)) q →
      q.isDenied (Safety.actionKey action) = false →
      Safety.check q action =
        ⟨SafetyDecisionType.ALLOW, SafetyLevel.LOW, "Previously approved action"⟩) := by
  refine ⟨?_, ?_, ?_, ?_, ?_⟩
  · intro hd
    unfold Safety.check
    rw [if_pos hd]
  · intro hd ha
    unfold Safety.check
    rw [if_neg (by simp [hd]), if_pos ha]
  · intro hd ha
    unfold Safety.check
    rw [if_neg (by simp [hd]), if_neg (by simp [ha])]
  · intro hev
    have hd : q.isDenied (Safety.actionKey action) = true := by
      apply permEvolve_denied_mono _ _ _ hev
      unfold PermissionStore.isDenied PermissionStore.deny
      simp
    unfold Safety.check
    rw [if_pos hd]
  · intro hev hd
    have ha : q.isAllowed (Safety.actionKey action) = true := by
      apply permEvolve_allowed_mono _ _ _ hev
      unfold PermissionStore.isAllowed PermissionStore.allow
      simp
    unfold Safety.check
    rw [if_neg (by simp [hd]), if_pos ha]

/-- Claim C8, witness at a concrete input: denying the signature of
`abAction` makes every later check of it DENY (also after an unrelated
allow), and allowing it makes later checks ALLOW. -/
theorem C8_witness :
    Safety.check ((emptyPerms.deny (Safety.actionKey abAction)).allow "other") abAction =
      ⟨SafetyDecisionType.DENY, SafetyLevel.HIGH, "Action explicitly denied by user"⟩ ∧
    Safety.check (emptyPerms.allow (Safety.actionKey abAction)) abAction =
      ⟨SafetyDecisionType.ALLOW, SafetyLevel.LOW, "Previously approved action"⟩ :=
  ⟨(C8_cache_precedence emptyPerms abAction
      ((emptyPerms.deny (Safety.actionKey abAction)).allow "other")).2.2.2.1
    (PermEvolve.allowStep _ _ "other" (PermEvolve.refl _)),
   (C8_cache_precedence emptyPerms abAction
      (emptyPerms.allow (Safety.actionKey abAction))).2.2.2.2
    (PermEvolve.refl _) (by decide)⟩

theorem lookupKey_of_mem_nodup (q : PyDict) (kv : String × PyVal)
    (hnd : (q.map Prod.fst).Nodup) (hm : kv ∈ q) : lookupKey q kv.1 = some kv.2 := by
  induction q with
  | nil => simp at hm
  | cons head tl ih =>
      unfold lookupKey
      by_cases hbeq : (head.1 == kv.1) = true
      · rw [if_pos hbeq]
        have heq : head.1 = kv.1 := by simpa using hbeq
        rcases List.mem_cons.mp hm with hkv | hkv
        · rw [hkv]
        · exfalso
          have hk1 : kv.1 ∈ tl.map Prod.fst := List.mem_map_of_mem Prod.fst hkv
          have := (List.nodup_cons.mp hnd).1
          rw [heq] at this
          exact this hk1
      · rw [if_neg hbeq]
        have hne : kv ≠ head := by
          intro he
          rw [he] at hbeq
          simp at hbeq
        rcases List.mem_cons.mp hm with hkv | hkv
        · exact absurd hkv hne
        · exact ih (List.nodup_cons.mp hnd).2 hkv

theorem dictBeq_of_perm (p q : PyDict) (hperm : p.Perm q)
    (hnd : (p.map Prod.fst).Nodup) : dictBeq p q = true := by
  have hndq : (q.map Prod.fst).Nodup := ((hperm.map Prod.fst).nodup_iff).mp hnd
  unfold dictBeq
  rw [Bool.and_eq_true]
  constructor
  · rw [List.all_eq_true]
    intro kv hkv
    rw [lookupKey_of_mem_nodup q kv hndq (hperm.mem_iff.mp hkv)]
    simp
  · rw [List.all_eq_true]
    intro kv hkv
    rw [lookupKey_of_mem_nodup p kv hnd (hperm.mem_iff.mpr hkv)]
    simp

/-- Claim C9 (amended): for loop detection, two ACTION values are the
same signature iff tool and parameter mapping are structurally equal —
in particular `sigBeq` holds across any re-ordering of a
duplicate-key-free parameter mapping, and loop detection treats the
second of two such consecutive actions as a repeat.  The permission
cache, however, keys actions by the insertion-ordered string rendering
`Safety.actionKey`; a recorded deny applies to a later `check()` of
another action when the two render to the same key, not merely when
they are structurally equal (see the counterexample for the failure of
the structural version). -/
theorem C9_signature_semantics (L : List ActionSig) (a b : Action) (p : PermissionStore) :
    (a.tool = b.tool → (a.params.getD []).Perm (b.params.getD []) →
      ((a.params.getD []).map Prod.fst).Nodup →
      sigBeq (sigOf a) (sigOf b) = true) ∧
    (b.type = some "ACTION" → sigBeq (sigOf b) (sigOf a) = true →
      (isRepeatedAction (L ++ [sigOf a]) b).1 = true) ∧
    (Safety.actionKey a = Safety.actionKey b →
      Safety.check (p.deny (Safety.actionKey a)) b =
        ⟨SafetyDecisionType.DENY, SafetyLevel.HIGH, "Action explicitly denied by user"⟩) := by
  refine ⟨?_, ?_, ?_⟩
  · intro htool hperm hnd
    unfold sigBeq sigOf
    rw [Bool.and_eq_true]
    exact ⟨by simp [htool], dictBeq_of_perm _ _ hperm hnd⟩
  · intro hbt hsig
    unfold isRepeatedAction
    rw [if_neg (by simp [hbt])]
    rw [List.getLast?_concat]
    simp only [hsig, if_true]
  · intro hkey
    have hd : (p.deny (Safety.actionKey a)).isDenied (Safety.actionKey b) = true := by
      simp only [PermissionStore.isDenied, PermissionStore.deny]
      simp [hkey]
    unfold Safety.check
    rw [if_pos hd]

/-- Claim C9, counterexample: `abAction` and `baAction` are ACTIONs
with the same tool and structurally equal parameter mappings (opposite
insertion orders); loop detection treats them as the same signature,
yet their cache keys differ, and a deny recorded for `abAction` does
not apply to a `check()` of `baAction` — which still returns CONFIRM,
not DENY. -/
theorem C9_counterexample :
    sigBeq (sigOf abAction) (sigOf baAction) = true ∧
    (isRepeatedAction [sigOf abAction] baAction).1 = true ∧
    Safety.actionKey abAction ≠ Safety.actionKey baAction ∧
    Safety.check (emptyPerms.deny (Safety.actionKey abAction)) baAction =
      ⟨SafetyDecisionType.CONFIRM, SafetyLevel.MEDIUM, "Requires user confirmation"⟩ ∧
    (Safety.check (emptyPerms.deny (Safety.actionKey abAction)) baAction).decision ≠
      SafetyDecisionType.DENY := by
  decide

/-- Claim C9, witness for the amended theorem at concrete inputs. -/
theorem C9_witness :
    sigBeq (sigOf abAction) (sigOf baAction) = true ∧
    (isRepeatedAction ([] ++ [sigOf abAction]) baAction).1 = true ∧
    Safety.check (emptyPerms.deny (Safety.actionKey abAction)) abAction =
      ⟨SafetyDecisionType.DENY, SafetyLevel.HIGH, "Action explicitly denied by user"⟩ :=
  ⟨(C9_signature_semantics [] abAction baAction emptyPerms).1 rfl (by decide) (by decide),
   (C9_signature_semantics [] abAction baAction emptyPerms).2.1 rfl (by decide),
   (C9_signature_semantics [] abAction abAction emptyPerms).2.2 rfl⟩

/-- Claim C10 (confirmed): from any in-budget loop state whose most
recent recorded signature equals the signature of the ACTION the oracle
proposes, the run terminates at once via `_smart_terminate` with
`success = true` and an unchanged trace — Tool Dispatch is not invoked
again for the repeated action; and in scenario C (oracle constantly
proposing tool `"X"` with empty parameters, dispatch through the
embedded executor) the fresh run ends after the second iteration with
`success = true`, the tool-tailored generic message, trace length 1,
and one completed step. -/
theorem C10_loop_termination (perms : PermissionStore) (P : Ports) (goal mc : String)
    (st : AgentState) (trace : ExecutionTrace) (o e : Option String) (a : Action)
    (hs : st.stepCount < st.maxSteps) (hf : st.failureCount < st.maxFailures)
    (hb : P.brain goal mc o e st = a) (ht : a.type = some "ACTION")
    (hnd : ((a.params.getD []).map Prod.fst).Nodup)
    (hlast : st.lastActions.getLast? = some (sigOf a)) :
    runLoop perms P goal mc st trace o e = (smartTerminate a trace, st) ∧
    (freshRun emptyPerms c10ports retrNull 15 4 "g") =
      (⟨true, "✅ Task completed successfully.",
        [⟨0, xAction, false, none,
          "Action failed with error: Tool \x27X\x27 not found",
          some "Tool \x27X\x27 not found"⟩]⟩,
       ⟨1, 1, 15, 4, [sigOf xAction]⟩) := by
  constructor
  · have hrep : (isRepeatedAction st.lastActions a).1 = true := by
      unfold isRepeatedAction
      rw [if_neg (by simp [ht])]
      rw [hlast]
      have hself : sigBeq (sigOf a) (sigOf a) = true := by
        unfold sigBeq
        rw [Bool.and_eq_true]
        refine ⟨by simp, dictBeq_of_perm _ _ (List.Perm.refl _) ?_⟩
        exact hnd
      simp only [hself, if_true]
    rw [runLoop]
    rw [dif_neg (by omega), dif_neg (by omega)]
    rw [hb]
    rw [if_neg (by simp [ht]), if_neg (by simp [ht]), if_pos (by simp [hrep])]
  · unfold freshRun runOn
    simp [runLoop, initState, c10ports, constOracle, xAction, isRepeatedAction,
          sigOf, sigBeq, dictBeq, Safety.check, Safety.actionKey,
          SafetyPolicy.classify, emptyPerms, PermissionStore.isDenied,
          PermissionStore.isAllowed, getParamStr, lookupKey, strHasSub, listHasSub,
          Executor.execute, okToolRun, registeredTools, onlineOnlyTools,
          pyStrOfOptStr, pyStrOfOptDict, VoiceEngine.observe, smartTerminate]

/-- Claim C10, witness for the general conjunct at a concrete input. -/
theorem C10_witness :
    runLoop emptyPerms c10ports "g" "" ⟨1, 1, 15, 4, [sigOf xAction]⟩
        [⟨0, xAction, false, none,
          "Action failed with error: Tool \x27X\x27 not found",
          some "Tool \x27X\x27 not found"⟩] none none =
      (smartTerminate xAction
        [⟨0, xAction, false, none,
          "Action failed with error: Tool \x27X\x27 not found",
          some "Tool \x27X\x27 not found"⟩],
       ⟨1, 1, 15, 4, [sigOf xAction]⟩) :=
  (C10_loop_termination emptyPerms c10ports "g" "" ⟨1, 1, 15, 4, [sigOf xAction]⟩
    [⟨0, xAction, false, none,
      "Action failed with error: Tool \x27X\x27 not found",
      some "Tool \x27X\x27 not found"⟩] none none xAction
    (by decide) (by decide) rfl rfl (by decide) (by decide)).1

end AURA
